import Mathlib

/-!
# Verification of the VM provisioning / configuration orchestrator

Shallow embedding of the orchestrator core of this repository:

* `VMSetup.runCommand` — the retry wrapper over the remote command client
  (`src/lib/vm-setup.ts`, lines 30-70).
* `VMSetup.waitForVMReady` — the readiness gate (lines 204-220).
* `VMSetup.cloneRepositories` — auxiliary repository clone loop (lines 174-199).
* `VMSetup.installOrgoPythonSDK` — SDK install step (lines 271-297).
* `VMSetup.installBrowserUse` — background-job poller (lines 304-386).
* `runSetupProcess` — the orchestrator (`src/app/api/setup/start/route.ts`,
  lines 81-326), modelled as the trace of Progress Store writes, Step Library
  calls and external API calls it performs for a given environment of
  external outcomes.
* the reset handler (`src/app/api/setup/status/route.ts`, POST, lines 73-138).

The remote transport (`OrgoClient.bash`) is treated as an oracle: a function
from attempt index to the outcome (result or raised transport error) of that
remote call.  All definitions follow the TypeScript source; control flow and
literal strings are transcribed from it.
-/

/-- Outcome of one call of the remote command client (`OrgoClient.bash`):
either a completed `RemoteCommandResult` with output and exit code, or a
raised transport error carrying a message. -/
inductive BashOutcome where
  | ok (output : String) (exitCode : Int)
  | err (message : String)
deriving DecidableEq

/-- The `{ output, success }` record returned by `VMSetup.runCommand`. -/
structure CmdResult where
  output : String
  success : Bool
deriving DecidableEq

/-- `pat` is a prefix of `s` (over character lists). -/
def headMatches : List Char → List Char → Bool
  | [], _ => true
  | _ :: _, [] => false
  | a :: as, b :: bs => a == b && headMatches as bs

/-- `pat` occurs somewhere in `s` (over character lists). -/
def hasSub (pat : List Char) : List Char → Bool
  | [] => pat.isEmpty
  | c :: rest => headMatches pat (c :: rest) || hasSub pat rest

/-- `s` contains `pat` as a substring (TypeScript `String.prototype.includes`). -/
def containsSub (s pat : String) : Bool :=
  hasSub pat.toList s.toList

/-- The transient-transport-error test of `vm-setup.ts` line 51:
`message.includes('502') || message.includes('Failed to execute') ||
message.includes('ECONNREFUSED')`. -/
def isTransient (m : String) : Bool :=
  containsSub m "502" || containsSub m "Failed to execute" || containsSub m "ECONNREFUSED"

/-- One iteration of the retry loop of `VMSetup.runCommand`
(`vm-setup.ts` lines 33-65).  `bash n` is the outcome of the `n`-th call of
the transport, `retries` the `retries` parameter, `attempt` the loop counter,
`fuel` the remaining iterations (`retries + 1 - attempt`), `lastMsg` the
message of `lastError` (used by the unreachable fallback after the loop,
lines 67-69).  Returns the `CmdResult`, the number of transport invocations
made, and the list of back-off sleeps (in ms) performed. -/
def runCommandGo (bash : Nat → BashOutcome) (retries : Nat) :
    Nat → Nat → String → CmdResult × Nat × List Nat
  | _, 0, lastMsg => ({ output := lastMsg, success := false }, 0, [])
  | attempt, fuel + 1, _ =>
    match bash attempt with
    | .ok out code => ({ output := out, success := code == 0 }, 1, [])
    | .err m =>
      if attempt < retries && isTransient m then
        let w := (attempt + 1) * 2000
        let r := runCommandGo bash retries (attempt + 1) fuel m
        (r.1, r.2.1 + 1, w :: r.2.2)
      else
        ({ output := m, success := false }, 1, [])

/-- `VMSetup.runCommand` (`vm-setup.ts` lines 30-70): run a command through
the transport with up to `retries` retries on transient transport errors. -/
def runCommand (bash : Nat → BashOutcome) (retries : Nat) : CmdResult × Nat × List Nat :=
  runCommandGo bash retries 0 (retries + 1) "Unknown error"

/-- Whether one readiness poll succeeded: the transport call completed with
exit code 0 (`vm-setup.ts` lines 207-213; a raised error is swallowed). -/
def pollOk : BashOutcome → Bool
  | .ok _ code => code == 0
  | .err _ => false

/-- Loop body of `VMSetup.waitForVMReady` (`vm-setup.ts` lines 204-220).
`i` is the loop counter, `fuel = maxRetries - i` the remaining iterations.
Returns the boolean result, the number of polls issued, and the number of
inter-poll sleeps performed (a sleep happens only when `i < maxRetries - 1`,
line 215). -/
def waitForVMReadyGo (bash : Nat → BashOutcome) (maxRetries : Nat) :
    Nat → Nat → Bool × Nat × Nat
  | _, 0 => (false, 0, 0)
  | i, fuel + 1 =>
    if pollOk (bash i) then (true, 1, 0)
    else
      let slept := if i < maxRetries - 1 then 1 else 0
      let r := waitForVMReadyGo bash maxRetries (i + 1) fuel
      (r.1, r.2.1 + 1, slept + r.2.2)

/-- `VMSetup.waitForVMReady` (`vm-setup.ts` lines 204-220): poll
`echo "ready"` up to `maxRetries` times, sleeping `delayMs` between
consecutive polls (the delay value does not influence the result, so it is
not a parameter here). -/
def waitForVMReady (bash : Nat → BashOutcome) (maxRetries : Nat) : Bool × Nat × Nat :=
  waitForVMReadyGo bash maxRetries 0 maxRetries

/-- The loop of `VMSetup.cloneRepositories` (`vm-setup.ts` lines 181-193):
one destructive re-clone per listed repository, `exec i` being the outcome of
the `i`-th remote command of the method.  Returns the collected error list
and the list of repository names attempted, in order. -/
def cloneLoop (exec : Nat → CmdResult) :
    Nat → List (String × String) → List (String × String) × List String
  | _, [] => ([], [])
  | i, (name, _sshUrl) :: rest =>
    let r := exec i
    let rec' := cloneLoop exec (i + 1) rest
    ((if r.success then rec'.1 else (name, r.output) :: rec'.1), name :: rec'.2)

/-- `VMSetup.cloneRepositories` (`vm-setup.ts` lines 174-199): `exec 0` is
the `mkdir -p ~/repositories` command (result ignored by the source), and
`exec (k+1)` the clone of the `k`-th repository.  Returns
`((success, errors), attempted)` where `success` is `errors.length === 0`. -/
def cloneRepositories (repos : List (String × String)) (exec : Nat → CmdResult) :
    (Bool × List (String × String)) × List String :=
  let _mkdir := exec 0
  let r := cloneLoop exec 1 repos
  ((r.1.isEmpty, r.1), r.2)

/-- The three-repository scenario of the claim: item 2 fails, items 1 and 3
succeed.  `exec3 0` is the `mkdir`, `exec3 2` the failing clone of `r2`. -/
def exec3 : Nat → CmdResult :=
  fun i => if i == 2 then { output := "clone failed", success := false }
           else { output := "", success := true }

/-- A `ProgressEvent` (`SetupProgress` in `vm-setup.ts` lines 8-13). -/
structure SetupProgress where
  step : String
  message : String
  success : Bool
  output : Option String := none
deriving DecidableEq

/-- `VMSetup.installOrgoPythonSDK` (`vm-setup.ts` lines 271-297): `exec 0` is
the `pip3 install ...` command, `exec 1` the `python3 -c "import ..."`
verification.  A failed install is only logged (line 279); a failed
verification only emits a progress event (lines 288-294); the method then
returns `true` unconditionally (line 296).  Returns the boolean result and
the progress events emitted by the method body itself. -/
def installOrgoPythonSDK (exec : Nat → CmdResult) : Bool × List SetupProgress :=
  let _install := exec 0
  let verify := exec 1
  let events :=
    if verify.success then []
    else [{ step := "Install SDKs",
            message := "SDK installation had issues, continuing...",
            success := true }]
  (true, events)

/-- ASCII whitespace, as stripped by JavaScript `String.prototype.trim` on
the outputs involved here. -/
def isWS (c : Char) : Bool :=
  c == ' ' || c == '\t' || c == '\n' || c == '\r'

/-- The character list of `s` with leading and trailing whitespace removed
(JavaScript `output.trim()`, `vm-setup.ts` line 356). -/
def jsTrim (s : String) : List Char :=
  ((s.toList.dropWhile isWS).reverse.dropWhile isWS).reverse

/-- Whether a sentinel-check outcome terminates the polling loop of
`VMSetup.installBrowserUse`: the source compares only the trimmed output
against the literal `DONE` (`vm-setup.ts` line 356) and never consults the
`success` flag of the check command. -/
def checkDone (c : CmdResult) : Bool :=
  jsTrim c.output == "DONE".toList

/-- The polling loop of `VMSetup.installBrowserUse` (`vm-setup.ts` lines
348-376): up to `fuel` further attempts, `check i` the outcome of the `i`-th
sentinel-check command, `verify` the outcome of the import-verification
command run after an early `DONE` exit (lines 364-368).  Returns the boolean
result of the method from this point on and the number of polls issued
(after 30 fruitless polls the method returns `false`, lines 379-385). -/
def pollBrowserUseGo (check : Nat → CmdResult) (verify : CmdResult) :
    Nat → Nat → Bool × Nat
  | _, 0 => (false, 0)
  | i, fuel + 1 =>
    if checkDone (check i) then (verify.success, 1)
    else
      let r := pollBrowserUseGo check verify (i + 1) fuel
      (r.1, r.2 + 1)

/-- `VMSetup.installBrowserUse` (`vm-setup.ts` lines 304-386): if writing the
install script fails the method returns `false` with no polls (lines
326-336); the outcome of launching the background job is ignored (lines
339-342); then the sentinel is polled up to `maxAttempts = 30` times.
Returns the boolean result and the number of polls issued. -/
def installBrowserUse (writeScript _startBg : CmdResult) (check : Nat → CmdResult)
    (verify : CmdResult) : Bool × Nat :=
  if !writeScript.success then (false, 0)
  else pollBrowserUseGo check verify 0 30

/-- A sentinel-check stream in which every check command fails at the
transport level (`success = false`) while its surfaced output is the error
text `DONE`. -/
def checkFailDone : Nat → CmdResult :=
  fun _ => { output := "DONE", success := false }

/-- A successful trivial command outcome. -/
def cmdOk : CmdResult := { output := "", success := true }

/-- The persisted `WorkflowState`: the `SetupState` row of the Progress
Store, with the fields read or written by the orchestrator
(`src/app/api/setup/start/route.ts` lines 82-102) and by the reset handler
(`src/app/api/setup/status/route.ts` lines 117-133).  Nullable columns are
`Option`s. -/
structure SetupState where
  status : String
  vmCreated : Bool
  repoCreated : Bool
  repoCloned : Bool
  browserUseInstalled : Bool
  gitSyncConfigured : Bool
  ralphWiggumSetup : Bool
  orgoProjectId : Option String
  orgoComputerId : Option String
  orgoComputerUrl : Option String
  vmStatus : Option String
  vaultRepoName : Option String
  vaultRepoUrl : Option String
  errorMessage : Option String
  claudeApiKey : Option String
deriving DecidableEq

/-- A partial field merge, as passed to `prisma.setupState.update` via
`updateStatus`: `none` leaves a column unchanged; for a nullable column,
`some none` sets it to SQL `null`. -/
structure StateUpdate where
  status : Option String := none
  vmCreated : Option Bool := none
  repoCreated : Option Bool := none
  repoCloned : Option Bool := none
  browserUseInstalled : Option Bool := none
  gitSyncConfigured : Option Bool := none
  ralphWiggumSetup : Option Bool := none
  orgoProjectId : Option (Option String) := none
  orgoComputerId : Option (Option String) := none
  orgoComputerUrl : Option (Option String) := none
  vmStatus : Option (Option String) := none
  vaultRepoName : Option (Option String) := none
  vaultRepoUrl : Option (Option String) := none
  errorMessage : Option (Option String) := none
  claudeApiKey : Option (Option String) := none

/-- Apply a partial update to the persisted row (the semantics of
`prisma.setupState.update({ data })`). -/
def applyU (s : SetupState) (u : StateUpdate) : SetupState where
  status := u.status.getD s.status
  vmCreated := u.vmCreated.getD s.vmCreated
  repoCreated := u.repoCreated.getD s.repoCreated
  repoCloned := u.repoCloned.getD s.repoCloned
  browserUseInstalled := u.browserUseInstalled.getD s.browserUseInstalled
  gitSyncConfigured := u.gitSyncConfigured.getD s.gitSyncConfigured
  ralphWiggumSetup := u.ralphWiggumSetup.getD s.ralphWiggumSetup
  orgoProjectId := u.orgoProjectId.getD s.orgoProjectId
  orgoComputerId := u.orgoComputerId.getD s.orgoComputerId
  orgoComputerUrl := u.orgoComputerUrl.getD s.orgoComputerUrl
  vmStatus := u.vmStatus.getD s.vmStatus
  vaultRepoName := u.vaultRepoName.getD s.vaultRepoName
  vaultRepoUrl := u.vaultRepoUrl.getD s.vaultRepoUrl
  errorMessage := u.errorMessage.getD s.errorMessage
  claudeApiKey := u.claudeApiKey.getD s.claudeApiKey

/-- The write performed by the top-level catch of `runSetupProcess`
(`start/route.ts` lines 319-325). -/
def failU (msg : String) : StateUpdate :=
  { status := some "failed", errorMessage := some (some msg) }

/-- JavaScript truthiness of a nullable string column (`null`, `undefined`
and `""` are falsy). -/
def truthy : Option String → Bool
  | none => false
  | some s => s != ""

/-- One observable effect of the orchestrator: a Progress Store write (with
the resulting persisted row), a Step Library call (with the boolean outcome
the step returned), or an external API call. -/
inductive Event where
  | write (s : SetupState)
  | step (name : String) (ok : Bool)
  | call (api : String)
deriving DecidableEq

/-- The environment of external outcomes one run of `runSetupProcess`
observes: results of the GitHub / Orgo API calls and the boolean results of
the Step Library actions.  The orchestrator is deterministic given these. -/
structure SetupEnv where
  /-- `account?.access_token` is present (`start/route.ts` line 115). -/
  githubConnected : Bool
  /-- the `claude-code` project is found (line 130). -/
  projectFound : Bool
  projectId : String
  /-- `some (id, url)` when the create-then-verify retry loop (lines
  139-182) ends with a computer; `none` when it throws. -/
  computerResult : Option (String × String)
  /-- message of the error thrown when computer creation fails. -/
  computerErr : String
  /-- result of `githubClient.repoExists` (line 207). -/
  repoStillExists : Bool
  /-- `createVaultRepo` (line 231): `(name, url, sshUrl)` or a thrown
  message. -/
  createRepoResult : Except String (String × String × String)
  /-- `githubUser.login` (line 197). -/
  githubLogin : String
  /-- result of `vmSetup.installPython()` (line 253). -/
  pythonOk : Bool
  /-- result of `vmSetup.installOrgoPythonSDK()` (line 260). -/
  sdkOk : Bool
  /-- `publicKey` and `success` from `vmSetup.generateSSHKey()` (line 267). -/
  sshPublicKey : String
  sshOk : Bool
  /-- `some msg` when `githubClient.createDeployKey` throws (line 278). -/
  deployKeyErr : Option String
  /-- result of `vmSetup.configureGit` (line 281; ignored by the caller). -/
  gitOk : Bool
  /-- result of `vmSetup.cloneVaultRepo` (line 287). -/
  cloneOk : Bool
  /-- result of `vmSetup.installBrowserUse` (line 294). -/
  browserOk : Bool
  /-- result of `vmSetup.setupGitSync` (line 301; ignored). -/
  syncOk : Bool
  /-- result of `vmSetup.storeClaudeKey` (line 305; ignored). -/
  storeOk : Bool
  /-- result of `vmSetup.setupRalphWiggum` (line 309; ignored). -/
  ralphOk : Bool

/-- The VM-configuration phase of `runSetupProcess` (`start/route.ts` lines
243-317), entered with the vault repository name `vname` and SSH url `vssh`
settled and the row in state `s`.  Mirrors the source: `installPython`,
`generateSSHKey` and `cloneVaultRepo` failures throw (lines 254-255,
268-269, 288-289), as do an empty repository name (273-274), a
`createDeployKey` error (278) and an empty SSH url (283-284); the results of
`installOrgoPythonSDK`, `configureGit`, `installBrowserUse`, `setupGitSync`,
`storeClaudeKey` and `setupRalphWiggum` are not checked (lines 261-263, 281,
295-297, 301, 305, 309). -/
def configPhase (env : SetupEnv) (vname vssh : String) (s : SetupState) : List Event :=
  let s7 := applyU s { status := some "configuring_vm" }
  let e := [Event.write s7, Event.step "installPython" env.pythonOk]
  if !env.pythonOk then
    e ++ [.write (applyU s7 (failU "Failed to install Python and essential tools on VM"))]
  else
    let e := e ++ [.step "installOrgoPythonSDK" env.sdkOk,
                   .step "generateSSHKey" env.sshOk]
    if !env.sshOk || env.sshPublicKey == "" then
      e ++ [.write (applyU s7 (failU "Failed to generate SSH key on VM"))]
    else if vname == "" then
      e ++ [.write (applyU s7 (failU "Vault repository name is not set"))]
    else
      let e := e ++ [.call "createDeployKey"]
      match env.deployKeyErr with
      | some m => e ++ [.write (applyU s7 (failU m))]
      | none =>
        let e := e ++ [.step "configureGit" env.gitOk]
        if vssh == "" then
          e ++ [.write (applyU s7 (failU "Failed to get vault SSH URL"))]
        else
          let e := e ++ [.step "cloneVaultRepo" env.cloneOk]
          if !env.cloneOk then
            e ++ [.write (applyU s7 (failU "Failed to clone vault repository to VM"))]
          else
            let s8 := applyU s7 { repoCloned := some true }
            let s9 := applyU s8 { browserUseInstalled := some true }
            let s10 := applyU s9 { gitSyncConfigured := some true }
            let s11 := applyU s10 { ralphWiggumSetup := some true }
            let s12 := applyU s11 { status := some "ready" }
            e ++ [.write s8,
                  .step "installBrowserUse" env.browserOk, .write s9,
                  .step "setupGitSync" env.syncOk, .write s10,
                  .step "storeClaudeKey" env.storeOk,
                  .step "setupRalphWiggum" env.ralphOk, .write s11,
                  .call "clonePendingGitHubRepositories",
                  .write s12]

/-- `runSetupProcess` (`start/route.ts` lines 81-326), as the trace of
Progress Store writes, Step Library calls and external API calls of one run,
given the environment `env` and the persisted row `s0` as left by the `POST`
handler (lines 33-61).  The vault-repository section (lines 196-241) reuses
the recorded repository when `setupState.vaultRepoName` and
`setupState.vaultRepoUrl` are truthy and `repoExists` confirms it; otherwise
it creates a new one. -/
def runSetupProcess (env : SetupEnv) (s0 : SetupState) : List Event :=
  if !env.githubConnected then
    [.write (applyU s0 (failU "GitHub account not connected"))]
  else
    let s1 := applyU s0 { status := some "provisioning" }
    let e := [Event.write s1]
    if !env.projectFound then
      e ++ [.write (applyU s1
        (failU "Project \"claude-code\" not found. Please create it in the Orgo dashboard first."))]
    else
      let s2 := applyU s1 { orgoProjectId := some (some env.projectId) }
      let e := e ++ [Event.write s2]
      match env.computerResult with
      | none => e ++ [.write (applyU s2 (failU env.computerErr))]
      | some (cid, curl) =>
        let s3 := applyU s2 { orgoComputerId := some (some cid),
                              orgoComputerUrl := some (some curl),
                              vmStatus := some (some "creating") }
        let s4 := applyU s3 { vmCreated := some true, vmStatus := some (some "running") }
        let e := e ++ [Event.write s3, Event.write s4]
        if truthy s0.vaultRepoName && truthy s0.vaultRepoUrl && env.repoStillExists then
          let vname := s0.vaultRepoName.getD ""
          let vssh := "git@github.com:" ++ env.githubLogin ++ "/" ++ vname ++ ".git"
          let s5 := applyU s4 { repoCreated := some true,
                                vaultRepoName := some (some vname),
                                vaultRepoUrl := some s0.vaultRepoUrl }
          let e := e ++ [Event.call "repoExists", Event.write s5]
          e ++ configPhase env vname vssh s5
        else
          let e := if truthy s0.vaultRepoName && truthy s0.vaultRepoUrl then
                     e ++ [Event.call "repoExists"]
                   else e
          let s5 := applyU s4 { status := some "creating_repo" }
          let e := e ++ [Event.write s5, Event.call "createVaultRepo"]
          match env.createRepoResult with
          | .error m => e ++ [.write (applyU s5 (failU m))]
          | .ok (n, u, ssh) =>
            let s6 := applyU s5 { repoCreated := some true,
                                  vaultRepoName := some (some n),
                                  vaultRepoUrl := some (some u) }
            let e := e ++ [Event.write s6]
            e ++ configPhase env n ssh s6

/-- The persisted rows after each Progress Store write of a trace. -/
def writesOf (es : List Event) : List SetupState :=
  es.filterMap (fun ev =>
    match ev with
    | .write s => some s
    | _ => none)

/-- The Step Library actions invoked in a trace, in order. -/
def stepsOf (es : List Event) : List String :=
  es.filterMap (fun ev =>
    match ev with
    | .step n _ => some n
    | _ => none)

/-- The persisted rows observable during one run: the initial row (as left
by the `POST` handler) followed by the row after each Progress Store write. -/
def runStates (env : SetupEnv) (s0 : SetupState) : List SetupState :=
  s0 :: writesOf (runSetupProcess env s0)

/-- All six step flags of the `WorkflowState` are set. -/
def stepFlagsAll (s : SetupState) : Bool :=
  s.vmCreated && s.repoCreated && s.repoCloned && s.browserUseInstalled &&
    s.gitSyncConfigured && s.ralphWiggumSetup

/-- The invariant exactly as the specification states it: `ready` implies
all step flags and no diagnostic; `failed` implies a diagnostic;
`orgoComputerId` non-null implies `vmCreated`. -/
def SpecInv (s : SetupState) : Prop :=
  (s.status = "ready" → stepFlagsAll s = true ∧ s.errorMessage = none) ∧
  (s.status = "failed" → s.errorMessage ≠ none) ∧
  (s.orgoComputerId ≠ none → s.vmCreated = true)

/-- The invariant the orchestrator actually maintains: the first two clauses
of `SpecInv`, and the machine-id clause in the converse direction
(`vmCreated` implies `orgoComputerId` non-null). -/
def AmendedInv (s : SetupState) : Prop :=
  (s.status = "ready" → stepFlagsAll s = true ∧ s.errorMessage = none) ∧
  (s.status = "failed" → s.errorMessage ≠ none) ∧
  (s.vmCreated = true → s.orgoComputerId ≠ none)

instance (s : SetupState) : Decidable (SpecInv s) := by
  unfold SpecInv; infer_instance

instance (s : SetupState) : Decidable (AmendedInv s) := by
  unfold AmendedInv; infer_instance

/-- An all-success environment: the GitHub account is connected, the
`claude-code` project exists, the computer `c1` is created, there is no
recorded vault repository so a fresh one is created, and every Step Library
action and external call succeeds. -/
def envOk : SetupEnv where
  githubConnected := true
  projectFound := true
  projectId := "p1"
  computerResult := some ("c1", "https://orgo.ai/c1")
  computerErr := ""
  repoStillExists := false
  createRepoResult := .ok ("samantha-vault-k3",
    "https://github.com/me/samantha-vault-k3", "git@github.com:me/samantha-vault-k3.git")
  githubLogin := "me"
  pythonOk := true
  sdkOk := true
  sshPublicKey := "ssh-ed25519 AAAA samantha-vm"
  sshOk := true
  deployKeyErr := none
  gitOk := true
  cloneOk := true
  browserOk := true
  syncOk := true
  storeOk := true
  ralphOk := true

/-- A fresh `SetupState` row as created by the `POST` handler
(`start/route.ts` lines 37-44): `status = "provisioning"`, all flags false,
all identifiers null, no diagnostic. -/
def s0Fresh : SetupState where
  status := "provisioning"
  vmCreated := false
  repoCreated := false
  repoCloned := false
  browserUseInstalled := false
  gitSyncConfigured := false
  ralphWiggumSetup := false
  orgoProjectId := none
  orgoComputerId := none
  orgoComputerUrl := none
  vmStatus := none
  vaultRepoName := none
  vaultRepoUrl := none
  errorMessage := none
  claudeApiKey := some "sk-ant-x"

/-- The environment `envOk` with the vault-clone step failing. -/
def envCloneFail : SetupEnv := { envOk with cloneOk := false }

/-- The environment `envOk` with the Python-install step failing. -/
def envPythonFail : SetupEnv := { envOk with pythonOk := false }

/-- The environment `envOk` with the SSH-key step failing. -/
def envSshFail : SetupEnv := { envOk with sshOk := false }

/-- The environment `envOk` with the browser-use step failing. -/
def envBrowserFail : SetupEnv := { envOk with browserOk := false }

/-- The environment `envOk` with the GitHub account not connected. -/
def envNoGithub : SetupEnv := { envOk with githubConnected := false }

/-- The environment `envOk`, with the recorded repository confirmed to still
exist remotely. -/
def envReuse : SetupEnv := { envOk with repoStillExists := true }

/-- A `SetupState` row recording a previously created vault repository. -/
def s0Reuse : SetupState :=
  { s0Fresh with
    vaultRepoName := some "samantha-vault-old"
    vaultRepoUrl := some "https://github.com/me/samantha-vault-old" }

/-- The field merge performed by the reset handler
(`src/app/api/setup/status/route.ts` lines 117-133): `status = "pending"`,
machine identifiers and `vmStatus` nulled, all six step flags cleared,
diagnostic cleared.  `vaultRepoName`, `vaultRepoUrl` and `claudeApiKey` are
not part of the update and therefore keep their values. -/
def resetUpdate : StateUpdate where
  status := some "pending"
  orgoProjectId := some none
  orgoComputerId := some none
  orgoComputerUrl := some none
  vmStatus := some none
  vmCreated := some false
  repoCreated := some false
  repoCloned := some false
  browserUseInstalled := some false
  gitSyncConfigured := some false
  ralphWiggumSetup := some false
  errorMessage := some none

/-- The reset handler (`status/route.ts` POST, lines 73-138): with no
(truthy) recorded computer id it returns 404 and performs no update
(lines 86-88); otherwise it attempts to delete the remote machine —
tolerating any failure, including "already deleted" (lines 98-114) — and
then applies `resetUpdate` regardless of the delete outcome. -/
def resetPOST (s : SetupState) (deleteOutcome : Except String Unit) : Option SetupState :=
  if truthy s.orgoComputerId then
    let _ := deleteOutcome
    some (applyU s resetUpdate)
  else none

/-- A `ready` row recording a machine and a vault repository. -/
def s0Ready : SetupState where
  status := "ready"
  vmCreated := true
  repoCreated := true
  repoCloned := true
  browserUseInstalled := true
  gitSyncConfigured := true
  ralphWiggumSetup := true
  orgoProjectId := some "p1"
  orgoComputerId := some "c1"
  orgoComputerUrl := some "https://orgo.ai/c1"
  vmStatus := some "running"
  vaultRepoName := some "samantha-vault-k3"
  vaultRepoUrl := some "https://github.com/me/samantha-vault-k3"
  errorMessage := none
  claudeApiKey := some "sk-ant-x"

/-- Auxiliary: the readiness gate returns `(false, fuel, fuel - 1)` when no
poll in the remaining window succeeds. -/
theorem waitForVMReadyGo_all_fail (bash : Nat → BashOutcome) (M : Nat) :
    ∀ fuel i, (∀ j, j < fuel → pollOk (bash (i + j)) = false) → fuel + i = M →
      waitForVMReadyGo bash M i fuel = (false, fuel, fuel - 1) := by
  intro fuel
  induction fuel with
  | zero => intro i _ _; rfl
  | succ g ih =>
    intro i hfail hM
    have h0 : pollOk (bash i) = false := by simpa using hfail 0 (Nat.succ_pos g)
    have hrec : ∀ j, j < g → pollOk (bash (i + 1 + j)) = false := by
      intro j hj
      rw [Nat.add_assoc, Nat.add_comm 1 j]
      exact hfail (j + 1) (by omega)
    cases g with
    | zero =>
      have hi : ¬ i < M - 1 := by omega
      simp [waitForVMReadyGo, h0, hi]
    | succ g' =>
      have hi : i < M - 1 := by omega
      have ih' := ih (i + 1) hrec (by omega)
      rw [waitForVMReadyGo]
      simp [h0, hi, ih']
      omega

/-- **C2.** For every command and every sequence of transport responses,
`VMSetup.runCommand` never retries when the remote call completes and
returns a result with nonzero exit code: it returns
`{ output, success := false }` after exactly one invocation of the remote
command client; it also returns after one invocation when the transport
raises a non-transient error, and whenever more than one invocation occurs
the first invocation raised a transient transport error (a message
containing `502`, `Failed to execute`, or `ECONNREFUSED`). -/
theorem runCommand_no_retry_on_exit_code (bash : Nat → BashOutcome) (r : Nat) :
    (∀ out c, bash 0 = .ok out c → c ≠ 0 →
       runCommand bash r = ({ output := out, success := false }, 1, [])) ∧
    (∀ m, bash 0 = .err m → isTransient m = false →
       runCommand bash r = ({ output := m, success := false }, 1, [])) ∧
    (1 < (runCommand bash r).2.1 → ∃ m, bash 0 = .err m ∧ isTransient m = true) := by
  refine ⟨?_, ?_, ?_⟩
  · intro out c h hc
    simp [runCommand, runCommandGo, h, hc]
  · intro m h ht
    simp [runCommand, runCommandGo, h, ht]
  · intro hmany
    cases h : bash 0 with
    | ok out c =>
      simp [runCommand, runCommandGo, h] at hmany
    | err m =>
      by_cases ht : isTransient m = true
      · exact ⟨m, rfl, ht⟩
      · have ht' : isTransient m = false := by simpa using ht
        simp [runCommand, runCommandGo, h, ht'] at hmany

/-- Witness for C2: a transport that completes with exit code 1 on the first
call is invoked exactly once and yields a failed result. -/
theorem runCommand_no_retry_on_exit_code_witness :
    runCommand (fun _ => .ok "boom" 1) 2 = ({ output := "boom", success := false }, 1, []) :=
  (runCommand_no_retry_on_exit_code (fun _ => .ok "boom" 1) 2).1 "boom" 1 rfl (by decide)

/-- **C4.** When all transport attempts raise a transient transport error,
with `retries = 2` the wrapper makes exactly 3 attempts, sleeping 2000 ms
after the first failed attempt and 4000 ms after the second, and returns
`{ output := last error message, success := false }`. -/
theorem runCommand_transient_exhaustion (bash : Nat → BashOutcome) (m0 m1 m2 : String)
    (h0 : bash 0 = .err m0) (h1 : bash 1 = .err m1) (h2 : bash 2 = .err m2)
    (t0 : isTransient m0 = true) (t1 : isTransient m1 = true)
    (t2 : isTransient m2 = true) :
    runCommand bash 2 = ({ output := m2, success := false }, 3, [2000, 4000]) := by
  simp [runCommand, runCommandGo, h0, h1, h2, t0, t1]

/-- Witness for C4: a transport that always raises a 502 gateway error. -/
theorem runCommand_transient_exhaustion_witness :
    runCommand (fun _ => .err "502 Bad Gateway") 2 =
      ({ output := "502 Bad Gateway", success := false }, 3, [2000, 4000]) :=
  runCommand_transient_exhaustion (fun _ => .err "502 Bad Gateway") _ _ _
    rfl rfl rfl (by decide) (by decide) (by decide)

/-- Auxiliary: the readiness gate exits at the first successful poll,
wherever it occurs in the window, having slept once after each failed
poll before it. -/
theorem waitForVMReadyGo_first_ok (bash : Nat → BashOutcome) (M : Nat) :
    ∀ fuel n i, n < fuel → fuel + i = M →
      (∀ j, j < n → pollOk (bash (i + j)) = false) → pollOk (bash (i + n)) = true →
      waitForVMReadyGo bash M i fuel = (true, n + 1, n) := by
  intro fuel
  induction fuel with
  | zero => intro n i hn _ _ _; omega
  | succ g ih =>
    intro n i hn hM hfail hok
    cases n with
    | zero =>
      have h0 : pollOk (bash i) = true := by simpa using hok
      rw [waitForVMReadyGo]
      simp [h0]
    | succ m =>
      have h0 : pollOk (bash i) = false := by simpa using hfail 0 (Nat.succ_pos m)
      have hi : i < M - 1 := by omega
      have hfail2 : ∀ j, j < m → pollOk (bash (i + 1 + j)) = false := by
        intro j hj
        rw [Nat.add_assoc, Nat.add_comm 1 j]
        exact hfail (j + 1) (by omega)
      have hok2 : pollOk (bash (i + 1 + m)) = true := by
        rw [Nat.add_assoc, Nat.add_comm 1 m]
        exact hok
      have ih2 := ih m (i + 1) (by omega) (by omega) hfail2 hok2
      rw [waitForVMReadyGo]
      simp [h0, hi, ih2]
      omega

/-- **C5.** `VMSetup.waitForVMReady` returns `true` immediately when a
trivial echo poll first succeeds with exit code 0 — at whatever attempt `k`
that first success occurs — issuing exactly `k + 1` polls (none afterward)
and `k` sleeps; and when no poll ever succeeds it issues exactly
`maxRetries` polls with `maxRetries - 1` sleeps between them (none after the
last) and returns `false`. -/
theorem waitForVMReady_gate (bash : Nat → BashOutcome) (M : Nat) :
    (∀ k, k < M → (∀ j, j < k → pollOk (bash j) = false) → pollOk (bash k) = true →
      waitForVMReady bash M = (true, k + 1, k)) ∧
    ((∀ i, i < M → pollOk (bash i) = false) → waitForVMReady bash M = (false, M, M - 1)) := by
  constructor
  · intro k hk hfail hok
    have := waitForVMReadyGo_first_ok bash M M k 0 hk (by omega)
      (fun j hj => by simpa using hfail j hj) (by simpa using hok)
    simpa [waitForVMReady] using this
  · intro hfail
    have := waitForVMReadyGo_all_fail bash M M 0 (fun j hj => by simpa using hfail j hj)
      (by omega)
    simpa [waitForVMReady] using this

/-- Witness for C5: a machine that first answers on the third poll
(two polls and two sleeps before, none after), and a machine that never
answers within `maxRetries = 15`. -/
theorem waitForVMReady_gate_witness :
    waitForVMReady (fun n => if n < 2 then .err "ECONNREFUSED" else .ok "ready" 0) 15 =
      (true, 3, 2) ∧
    waitForVMReady (fun _ => .err "ECONNREFUSED") 15 = (false, 15, 14) :=
  ⟨(waitForVMReady_gate (fun n => if n < 2 then .err "ECONNREFUSED" else .ok "ready" 0) 15).1
      2 (by decide) (fun j hj => by interval_cases j <;> decide) (by decide),
   (waitForVMReady_gate (fun _ => .err "ECONNREFUSED") 15).2 (fun i _ => rfl)⟩

/-- Auxiliary characterisation of `cloneLoop`: it visits every repository and
collects exactly the failures, tagged with the failing command's output. -/
theorem cloneLoop_spec (exec : Nat → CmdResult) :
    ∀ (repos : List (String × String)) (i : Nat),
      cloneLoop exec i repos =
        ((repos.enumFrom i).filterMap (fun p =>
            if (exec p.1).success then none else some (p.2.1, (exec p.1).output)),
          repos.map Prod.fst) := by
  intro repos
  induction repos with
  | nil => intro i; rfl
  | cons hd tl ih =>
    intro i
    obtain ⟨name, url⟩ := hd
    simp only [cloneLoop, ih (i + 1), List.enumFrom, List.filterMap, List.map]
    by_cases h : (exec i).success
    · simp [h]
    · simp [h]

/-- **C8.** `VMSetup.cloneRepositories` attempts every listed repository even
after an earlier one fails (the attempted list is exactly the input names, in
order), collects one error entry per failed item (the failures, with their
command outputs, in input order), and reports overall success exactly when
the collected error list is empty. -/
theorem cloneRepositories_collects_errors (repos : List (String × String))
    (exec : Nat → CmdResult) :
    (cloneRepositories repos exec).2 = repos.map Prod.fst ∧
    ((cloneRepositories repos exec).1.1 = true ↔ (cloneRepositories repos exec).1.2 = []) ∧
    (cloneRepositories repos exec).1.2 =
      (repos.enumFrom 1).filterMap (fun p =>
        if (exec p.1).success then none else some (p.2.1, (exec p.1).output)) := by
  unfold cloneRepositories
  rw [cloneLoop_spec]
  refine ⟨rfl, ?_, rfl⟩
  simp [List.isEmpty_iff]

/-- Witness for C8: with 3 items where only item 2 fails, the result is
`success = false` with `errors = [item 2]`, and all three items were
attempted. -/
theorem cloneRepositories_collects_errors_witness :
    cloneRepositories [("r1", "u1"), ("r2", "u2"), ("r3", "u3")] exec3 =
      ((false, [("r2", "clone failed")]), ["r1", "r2", "r3"]) ∧
    ((cloneRepositories [("r1", "u1"), ("r2", "u2"), ("r3", "u3")] exec3).1.1 = true ↔
      (cloneRepositories [("r1", "u1"), ("r2", "u2"), ("r3", "u3")] exec3).1.2 = []) :=
  ⟨by decide,
   (cloneRepositories_collects_errors [("r1", "u1"), ("r2", "u2"), ("r3", "u3")] exec3).2.1⟩

/-- **C9.** The SDK-installation step returns `true` for every possible
outcome of its underlying remote commands — even when both the pip install
and the import verification fail — so this step alone can never cause the
workflow to fail. -/
theorem installOrgoPythonSDK_always_true (exec : Nat → CmdResult) :
    (installOrgoPythonSDK exec).1 = true := rfl

/-- Auxiliary: if no check in the window reports `DONE`, the poller runs the
whole window and fails. -/
theorem pollBrowserUseGo_all_pending (check : Nat → CmdResult) (verify : CmdResult) :
    ∀ fuel i, (∀ j, j < fuel → checkDone (check (i + j)) = false) →
      pollBrowserUseGo check verify i fuel = (false, fuel) := by
  intro fuel
  induction fuel with
  | zero => intro i _; rfl
  | succ g ih =>
    intro i hpend
    have h0 : checkDone (check i) = false := by simpa using hpend 0 (Nat.succ_pos g)
    have hrec : ∀ j, j < g → checkDone (check (i + 1 + j)) = false := by
      intro j hj
      rw [Nat.add_assoc, Nat.add_comm 1 j]
      exact hpend (j + 1) (by omega)
    rw [pollBrowserUseGo]
    simp [h0, ih (i + 1) hrec]

/-- Auxiliary: the poller exits at the first `DONE` check and hands off to
the verification command. -/
theorem pollBrowserUseGo_first_done (check : Nat → CmdResult) (verify : CmdResult) :
    ∀ fuel n i, n < fuel → (∀ j, j < n → checkDone (check (i + j)) = false) →
      checkDone (check (i + n)) = true →
      pollBrowserUseGo check verify i fuel = (verify.success, n + 1) := by
  intro fuel
  induction fuel with
  | zero => intro n i hn _ _; omega
  | succ g ih =>
    intro n i hn hpend hdone
    cases n with
    | zero =>
      have hd : checkDone (check i) = true := by simpa using hdone
      rw [pollBrowserUseGo]
      simp [hd]
    | succ m =>
      have h0 : checkDone (check i) = false := by simpa using hpend 0 (Nat.succ_pos m)
      have hrec : ∀ j, j < m → checkDone (check (i + 1 + j)) = false := by
        intro j hj
        rw [Nat.add_assoc, Nat.add_comm 1 j]
        exact hpend (j + 1) (by omega)
      have hdone' : checkDone (check (i + 1 + m)) = true := by
        rw [Nat.add_assoc, Nat.add_comm 1 m]
        exact hdone
      rw [pollBrowserUseGo]
      simp [h0, ih m (i + 1) (by omega) hrec hdone']

/-- **C10 (amended).** In the polling loop of `VMSetup.installBrowserUse`, a
poll attempt is treated as still-pending exactly when its trimmed output is
not the literal `DONE`, regardless of the check command's `success` flag:
if no check output trims to `DONE` the loop performs all 30 polls and the
method returns `false`, and the loop terminates early at the first attempt
whose trimmed output equals `DONE`, returning the verification result. -/
theorem installBrowserUse_poller (writeScript startBg : CmdResult)
    (check : Nat → CmdResult) (verify : CmdResult)
    (hw : writeScript.success = true) :
    ((∀ j, j < 30 → checkDone (check j) = false) →
      installBrowserUse writeScript startBg check verify = (false, 30)) ∧
    (∀ n, n < 30 → (∀ j, j < n → checkDone (check j) = false) →
      checkDone (check n) = true →
      installBrowserUse writeScript startBg check verify = (verify.success, n + 1)) := by
  constructor
  · intro hpend
    have := pollBrowserUseGo_all_pending check verify 30 0 (fun j hj => by simpa using hpend j hj)
    simpa [installBrowserUse, hw] using this
  · intro n hn hpend hdone
    have := pollBrowserUseGo_first_done check verify 30 n 0 hn
      (fun j hj => by simpa using hpend j hj) (by simpa using hdone)
    simpa [installBrowserUse, hw] using this

/-- Counterexample to C10 as stated: the claim says a poll attempt with
`success = false` is treated as still-pending, so a stream of checks that
all fail (`success = false` on every attempt) would have to exhaust all 30
polls and return `false`.  The source branches only on the trimmed output:
with every check failing but carrying output `DONE`, the loop exits after a
single poll and returns the verification result. -/
theorem installBrowserUse_pending_counterexample :
    ¬ (∀ (check : Nat → CmdResult) (w s v : CmdResult), w.success = true →
        (∀ j, (check j).success = false) →
        installBrowserUse w s check v = (false, 30)) := by
  intro h
  have := h checkFailDone cmdOk cmdOk cmdOk rfl (fun _ => rfl)
  revert this
  decide

/-- The rows written during the VM-configuration phase satisfy the amended
invariant, provided the incoming row has no diagnostic, carries a machine
id, and has `vmCreated` and `repoCreated` already set. -/
theorem configPhase_inv (env : SetupEnv) (vname vssh : String) (s : SetupState)
    (hs : s.errorMessage = none) (hcid : s.orgoComputerId ≠ none)
    (hvm : s.vmCreated = true) (hrc : s.repoCreated = true) :
    ∀ t ∈ writesOf (configPhase env vname vssh s), AmendedInv t := by
  intro t ht
  simp only [writesOf, configPhase] at ht
  split at ht
  · simp [List.mem_filterMap] at ht
    rcases ht with rfl | rfl <;>
      simp [AmendedInv, applyU, failU, stepFlagsAll, hs, hcid, hvm, hrc]
  · split at ht
    · simp [List.mem_filterMap] at ht
      rcases ht with rfl | rfl <;>
        simp [AmendedInv, applyU, failU, stepFlagsAll, hs, hcid, hvm, hrc]
    · split at ht
      · simp [List.mem_filterMap] at ht
        rcases ht with rfl | rfl <;>
          simp [AmendedInv, applyU, failU, stepFlagsAll, hs, hcid, hvm, hrc]
      · split at ht
        · simp [List.mem_filterMap] at ht
          rcases ht with rfl | rfl <;>
            simp [AmendedInv, applyU, failU, stepFlagsAll, hs, hcid, hvm, hrc]
        · split at ht
          · simp [List.mem_filterMap] at ht
            rcases ht with rfl | rfl <;>
              simp [AmendedInv, applyU, failU, stepFlagsAll, hs, hcid, hvm, hrc]
          · split at ht
            · simp [List.mem_filterMap] at ht
              rcases ht with rfl | rfl <;>
                simp [AmendedInv, applyU, failU, stepFlagsAll, hs, hcid, hvm, hrc]
            · simp [List.mem_filterMap] at ht
              rcases ht with rfl | rfl | rfl | rfl | rfl | rfl <;>
                simp [AmendedInv, applyU, failU, stepFlagsAll, hs, hcid, hvm, hrc]

/-- **C1 (amended).** Every persisted row observable during a run of
`runSetupProcess` — starting from a row as the `POST` handler leaves it
(`status = "provisioning"`, `vmCreated = false`, no diagnostic) — satisfies:
`status = "ready"` implies every step flag is true and the diagnostic is
null; `status = "failed"` implies the diagnostic is non-null; and
`vmCreated = true` implies `orgoComputerId` is non-null.  (The converse
machine-id clause claimed by the specification does not hold: see the
counterexample.) -/
theorem runSetupProcess_invariant (env : SetupEnv) (s0 : SetupState)
    (h1 : s0.status = "provisioning") (h2 : s0.vmCreated = false)
    (h3 : s0.errorMessage = none) :
    ∀ s ∈ runStates env s0, AmendedInv s := by
  intro t ht
  simp only [runStates, writesOf, List.mem_cons] at ht
  rcases ht with rfl | ht
  · simp [AmendedInv, h1, h2]
  · simp only [runSetupProcess] at ht
    split at ht
    · simp [List.mem_filterMap] at ht
      rcases ht with rfl <;>
        simp [AmendedInv, applyU, failU, stepFlagsAll, h2]
    · split at ht
      · simp [List.mem_filterMap] at ht
        rcases ht with rfl | rfl <;>
          simp [AmendedInv, applyU, failU, stepFlagsAll, h2]
      · split at ht
        · simp [List.mem_filterMap] at ht
          rcases ht with rfl | rfl | rfl <;>
            simp [AmendedInv, applyU, failU, stepFlagsAll, h2]
        · rename_i cid curl heq
          split at ht
          · rw [List.filterMap_append, List.mem_append] at ht
            rcases ht with ht | ht
            · simp [List.mem_filterMap] at ht
              rcases ht with rfl | rfl | rfl | rfl | rfl <;>
                simp [AmendedInv, applyU, failU, stepFlagsAll, h2]
            · exact configPhase_inv env _ _ _ (by simp [applyU, h3]) (by simp [applyU])
                (by simp [applyU]) (by simp [applyU]) t ht
          · split at ht
            · split at ht <;>
                · simp [List.mem_filterMap] at ht
                  rcases ht with rfl | rfl | rfl | rfl | rfl | rfl <;>
                    simp [AmendedInv, applyU, failU, stepFlagsAll, h2]
            · split at ht <;>
                · rw [List.filterMap_append, List.mem_append] at ht
                  rcases ht with ht | ht
                  · simp [List.mem_filterMap] at ht
                    rcases ht with rfl | rfl | rfl | rfl | rfl | rfl <;>
                      simp [AmendedInv, applyU, failU, stepFlagsAll, h2]
                  · exact configPhase_inv env _ _ _ (by simp [applyU, h3]) (by simp [applyU])
                      (by simp [applyU]) (by simp [applyU]) t ht

/-- Counterexample to C1 as stated: on a fully successful fresh run, the
write at `start/route.ts` lines 184-188 persists `orgoComputerId` while
`vmCreated` is still false (`vmCreated` is only written at line 194, after a
10-second wait), so the observable row between the two writes violates the
claimed clause "`orgoComputerId` non-null implies `vmCreated`". -/
theorem runSetupProcess_specInv_counterexample :
    ¬ (∀ s ∈ runStates envOk s0Fresh, SpecInv s) ∧
    (runStates envOk s0Fresh).any
      (fun s => s.orgoComputerId == some "c1" && !s.vmCreated) = true := by
  decide

/-- Witness for the amended C1 invariant: it holds along the all-success
fresh run. -/
theorem runSetupProcess_invariant_witness :
    (runStates envOk s0Fresh).Forall AmendedInv :=
  List.forall_iff_forall_mem.mpr (runSetupProcess_invariant envOk s0Fresh rfl rfl rfl)

/-- Auxiliary: within the VM-configuration phase, a Progress Store write
carrying `status = "failed"` can only be the final event of the phase, and
it always carries a diagnostic. -/
theorem configPhase_failed_last (env : SetupEnv) (vname vssh : String) (s : SetupState) :
    ∀ t, Event.write t ∈ configPhase env vname vssh s → t.status = "failed" →
      (configPhase env vname vssh s).getLast? = some (Event.write t) ∧
      t.errorMessage ≠ none := by
  intro t hmem hfail
  cases hp : env.pythonOk with
  | false =>
    simp [configPhase, hp] at hmem ⊢
    rcases hmem with rfl | rfl
    · simp [applyU] at hfail
    · simp [applyU, failU]
  | true =>
    cases hso : env.sshOk with
    | false =>
      simp [configPhase, hp, hso] at hmem ⊢
      rcases hmem with rfl | rfl
      · simp [applyU] at hfail
      · simp [applyU, failU]
    | true =>
      cases hkey : env.sshPublicKey == "" with
      | true =>
        simp [configPhase, hp, hso, hkey] at hmem ⊢
        rcases hmem with rfl | rfl
        · simp [applyU] at hfail
        · simp [applyU, failU]
      | false =>
        cases hvn : vname == "" with
        | true =>
          simp [configPhase, hp, hso, hkey, hvn] at hmem ⊢
          rcases hmem with rfl | rfl
          · simp [applyU] at hfail
          · simp [applyU, failU]
        | false =>
          cases hdk : env.deployKeyErr with
          | some m =>
            simp [configPhase, hp, hso, hkey, hvn, hdk] at hmem ⊢
            rcases hmem with rfl | rfl
            · simp [applyU] at hfail
            · simp [applyU, failU]
          | none =>
            cases hvs : vssh == "" with
            | true =>
              simp [configPhase, hp, hso, hkey, hvn, hdk, hvs] at hmem ⊢
              rcases hmem with rfl | rfl
              · simp [applyU] at hfail
              · simp [applyU, failU]
            | false =>
              cases hcl : env.cloneOk with
              | false =>
                simp [configPhase, hp, hso, hkey, hvn, hdk, hvs, hcl] at hmem ⊢
                rcases hmem with rfl | rfl
                · simp [applyU] at hfail
                · simp [applyU, failU]
              | true =>
                simp [configPhase, hp, hso, hkey, hvn, hdk, hvs, hcl] at hmem ⊢
                rcases hmem with rfl | rfl | rfl | rfl | rfl | rfl <;>
                  simp [applyU] at hfail

/-- Auxiliary: consing onto a list does not change a known last element. -/
theorem getLast?_cons_of_tail {α : Type} (a : α) {x : α} {l : List α}
    (h : l.getLast? = some x) : (a :: l).getLast? = some x := by
  cases l with
  | nil => simp at h
  | cons b bs => rw [List.getLast?_cons_cons]; exact h

/-- Auxiliary: across a whole orchestrator run, a Progress Store write
carrying `status = "failed"` can only come from the top-level catch: it is
the final event of the trace and carries the diagnostic. -/
theorem runSetupProcess_failed_is_last (env : SetupEnv) (s0 : SetupState) :
    ∀ t, Event.write t ∈ runSetupProcess env s0 → t.status = "failed" →
      (runSetupProcess env s0).getLast? = some (Event.write t) ∧
      t.errorMessage ≠ none := by
  intro t hmem hfail
  cases hg : env.githubConnected with
  | false =>
    simp [runSetupProcess, hg] at hmem ⊢
    rcases hmem with rfl
    simp [applyU, failU]
  | true =>
    cases hpf : env.projectFound with
    | false =>
      simp [runSetupProcess, hg, hpf] at hmem ⊢
      rcases hmem with rfl | rfl
      · simp [applyU] at hfail
      · simp [applyU, failU]
    | true =>
      cases hcr : env.computerResult with
      | none =>
        simp [runSetupProcess, hg, hpf, hcr] at hmem ⊢
        rcases hmem with rfl | rfl | rfl
        · simp [applyU] at hfail
        · simp [applyU] at hfail
        · simp [applyU, failU]
      | some p =>
        obtain ⟨cid, curl⟩ := p
        cases hn : truthy s0.vaultRepoName with
        | true =>
          cases hu : truthy s0.vaultRepoUrl with
          | true =>
            cases hre : env.repoStillExists with
            | true =>
              simp [runSetupProcess, hg, hpf, hcr, hn, hu, hre] at hmem ⊢
              rcases hmem with rfl | rfl | rfl | rfl | rfl | h
              · simp [applyU] at hfail
              · simp [applyU] at hfail
              · simp [applyU] at hfail
              · simp [applyU] at hfail
              · simp [applyU] at hfail
              · have hcp := configPhase_failed_last env _ _ _ t h hfail
                refine ⟨?_, hcp.2⟩
                repeat apply getLast?_cons_of_tail
                exact hcp.1
            | false =>
              cases hcrr : env.createRepoResult with
              | error m =>
                simp [runSetupProcess, hg, hpf, hcr, hn, hu, hre, hcrr] at hmem ⊢
                rcases hmem with rfl | rfl | rfl | rfl | rfl | rfl
                · simp [applyU] at hfail
                · simp [applyU] at hfail
                · simp [applyU] at hfail
                · simp [applyU] at hfail
                · simp [applyU] at hfail
                · simp [applyU, failU]
              | ok triple =>
                obtain ⟨n, u, ssh⟩ := triple
                simp [runSetupProcess, hg, hpf, hcr, hn, hu, hre, hcrr] at hmem ⊢
                rcases hmem with rfl | rfl | rfl | rfl | rfl | rfl | h
                · simp [applyU] at hfail
                · simp [applyU] at hfail
                · simp [applyU] at hfail
                · simp [applyU] at hfail
                · simp [applyU] at hfail
                · simp [applyU] at hfail
                · have hcp := configPhase_failed_last env _ _ _ t h hfail
                  refine ⟨?_, hcp.2⟩
                  repeat apply getLast?_cons_of_tail
                  exact hcp.1
          | false =>
            cases hcrr : env.createRepoResult with
            | error m =>
              simp [runSetupProcess, hg, hpf, hcr, hn, hu, hcrr] at hmem ⊢
              rcases hmem with rfl | rfl | rfl | rfl | rfl | rfl
              · simp [applyU] at hfail
              · simp [applyU] at hfail
              · simp [applyU] at hfail
              · simp [applyU] at hfail
              · simp [applyU] at hfail
              · simp [applyU, failU]
            | ok triple =>
              obtain ⟨n, u, ssh⟩ := triple
              simp [runSetupProcess, hg, hpf, hcr, hn, hu, hcrr] at hmem ⊢
              rcases hmem with rfl | rfl | rfl | rfl | rfl | rfl | h
              · simp [applyU] at hfail
              · simp [applyU] at hfail
              · simp [applyU] at hfail
              · simp [applyU] at hfail
              · simp [applyU] at hfail
              · simp [applyU] at hfail
              · have hcp := configPhase_failed_last env _ _ _ t h hfail
                refine ⟨?_, hcp.2⟩
                repeat apply getLast?_cons_of_tail
                exact hcp.1
        | false =>
          cases hcrr : env.createRepoResult with
          | error m =>
            simp [runSetupProcess, hg, hpf, hcr, hn, hcrr] at hmem ⊢
            rcases hmem with rfl | rfl | rfl | rfl | rfl | rfl
            · simp [applyU] at hfail
            · simp [applyU] at hfail
            · simp [applyU] at hfail
            · simp [applyU] at hfail
            · simp [applyU] at hfail
            · simp [applyU, failU]
          | ok triple =>
            obtain ⟨n, u, ssh⟩ := triple
            simp [runSetupProcess, hg, hpf, hcr, hn, hcrr] at hmem ⊢
            rcases hmem with rfl | rfl | rfl | rfl | rfl | rfl | h
            · simp [applyU] at hfail
            · simp [applyU] at hfail
            · simp [applyU] at hfail
            · simp [applyU] at hfail
            · simp [applyU] at hfail
            · simp [applyU] at hfail
            · have hcp := configPhase_failed_last env _ _ _ t h hfail
              refine ⟨?_, hcp.2⟩
              repeat apply getLast?_cons_of_tail
              exact hcp.1

/-- **C3 (amended).** A `false` outcome of `installPython`, `generateSSHKey`
or `cloneVaultRepo` aborts the VM-configuration sequence: no subsequent Step
Library action runs and the last Progress Store write sets
`status = "failed"` with the diagnostic persisted.  The remaining steps are
advisory (see the counterexample, where a `false` `installBrowserUse` does
not prevent the run from reaching `ready`).  The Orchestrator stays the sole
converter of a failure into the failed phase: in any run, a Progress Store
write with `status = "failed"` is the top-level catch's write — the final
event of the trace, carrying the diagnostic — and the only other Progress
Store writer, the reset handler, only ever writes `status = "pending"`. -/
theorem runSetupProcess_failure_policy (env : SetupEnv) (vname vssh : String)
    (s0 : SetupState) :
    (env.pythonOk = false →
      stepsOf (configPhase env vname vssh s0) = ["installPython"] ∧
      writesOf (configPhase env vname vssh s0) =
        [applyU s0 { status := some "configuring_vm" },
         applyU (applyU s0 { status := some "configuring_vm" })
           (failU "Failed to install Python and essential tools on VM")]) ∧
    (env.pythonOk = true → env.sshOk = false →
      stepsOf (configPhase env vname vssh s0) =
        ["installPython", "installOrgoPythonSDK", "generateSSHKey"] ∧
      writesOf (configPhase env vname vssh s0) =
        [applyU s0 { status := some "configuring_vm" },
         applyU (applyU s0 { status := some "configuring_vm" })
           (failU "Failed to generate SSH key on VM")]) ∧
    (env.pythonOk = true → env.sshOk = true → env.sshPublicKey ≠ "" → vname ≠ "" →
      env.deployKeyErr = none → vssh ≠ "" → env.cloneOk = false →
      stepsOf (configPhase env vname vssh s0) =
        ["installPython", "installOrgoPythonSDK", "generateSSHKey", "configureGit",
         "cloneVaultRepo"] ∧
      writesOf (configPhase env vname vssh s0) =
        [applyU s0 { status := some "configuring_vm" },
         applyU (applyU s0 { status := some "configuring_vm" })
           (failU "Failed to clone vault repository to VM")]) ∧
    (∀ t, Event.write t ∈ runSetupProcess env s0 → t.status = "failed" →
      (runSetupProcess env s0).getLast? = some (Event.write t) ∧
      t.errorMessage ≠ none) ∧
    (∀ out t, resetPOST s0 out = some t → t.status = "pending") := by
  refine ⟨?_, ?_, ?_, ?_, ?_⟩
  · intro h
    simp [configPhase, stepsOf, writesOf, h]
  · intro h1 h2
    simp [configPhase, stepsOf, writesOf, h1, h2]
  · intro h1 h2 h3 h4 h5 h6 h7
    simp [configPhase, stepsOf, writesOf, h1, h2, h3, h4, h5, h6, h7]
  · exact runSetupProcess_failed_is_last env s0
  · intro out t h
    unfold resetPOST at h
    split at h
    · simp only [Option.some.injEq] at h
      subst h
      simp [applyU, resetUpdate]
    · simp at h

/-- Counterexample to C3 as stated: not every Step Library action's `false`
outcome stops the orchestrator.  With `installBrowserUse` returning `false`,
the orchestrator still runs the subsequent `setupGitSync` step (and the rest
of the sequence), persists `browserUseInstalled = true` regardless
(`start/route.ts` lines 294-298), and reaches `status = "ready"`. -/
theorem configPhase_advisory_counterexample :
    Event.step "installBrowserUse" false ∈ runSetupProcess envBrowserFail s0Fresh ∧
    Event.step "setupGitSync" true ∈ runSetupProcess envBrowserFail s0Fresh ∧
    (runStates envBrowserFail s0Fresh).any
      (fun s => s.status == "ready" && s.browserUseInstalled) = true := by
  decide

/-- Witness for the amended C3: each of the three fatal steps, failing in an
otherwise successful environment, is the last step executed; a failed run's
final event is the catch's `failed` write with its diagnostic; and the reset
handler's write carries `status = "pending"`. -/
theorem runSetupProcess_failure_policy_witness :
    stepsOf (configPhase envPythonFail "vault" "git@github.com:me/vault.git" s0Fresh) =
      ["installPython"] ∧
    stepsOf (configPhase envSshFail "vault" "git@github.com:me/vault.git" s0Fresh) =
      ["installPython", "installOrgoPythonSDK", "generateSSHKey"] ∧
    stepsOf (configPhase envCloneFail "vault" "git@github.com:me/vault.git" s0Fresh) =
      ["installPython", "installOrgoPythonSDK", "generateSSHKey", "configureGit",
       "cloneVaultRepo"] ∧
    ((runSetupProcess envNoGithub s0Fresh).getLast? =
        some (Event.write (applyU s0Fresh (failU "GitHub account not connected"))) ∧
      (applyU s0Fresh (failU "GitHub account not connected")).errorMessage ≠ none) ∧
    (applyU s0Ready resetUpdate).status = "pending" :=
  ⟨((runSetupProcess_failure_policy envPythonFail "vault" "git@github.com:me/vault.git"
      s0Fresh).1 rfl).1,
   ((runSetupProcess_failure_policy envSshFail "vault" "git@github.com:me/vault.git"
      s0Fresh).2.1 rfl rfl).1,
   ((runSetupProcess_failure_policy envCloneFail "vault" "git@github.com:me/vault.git"
      s0Fresh).2.2.1 rfl rfl (by decide) (by decide) rfl (by decide) rfl).1,
   (runSetupProcess_failure_policy envNoGithub "vault" "git@github.com:me/vault.git"
      s0Fresh).2.2.2.1
     (applyU s0Fresh (failU "GitHub account not connected")) (by decide) (by decide),
   (runSetupProcess_failure_policy envOk "vault" "git@github.com:me/vault.git"
      s0Ready).2.2.2.2 (Except.ok ()) (applyU s0Ready resetUpdate) (by decide)⟩

/-- The VM-configuration phase never calls `createVaultRepo`, and none of
its Progress Store writes changes `vaultRepoName`. -/
theorem configPhase_preserves_repoName (env : SetupEnv) (vname vssh : String) (s : SetupState) :
    Event.call "createVaultRepo" ∉ configPhase env vname vssh s ∧
    ∀ t ∈ writesOf (configPhase env vname vssh s), t.vaultRepoName = s.vaultRepoName := by
  constructor
  · intro hmem
    simp only [configPhase] at hmem
    split at hmem
    · simp at hmem
    · split at hmem
      · simp at hmem
      · split at hmem
        · simp at hmem
        · split at hmem
          · simp at hmem
          · split at hmem
            · simp at hmem
            · split at hmem
              · simp at hmem
              · simp at hmem
  · intro t ht
    simp only [writesOf, configPhase] at ht
    split at ht
    · simp [List.mem_filterMap] at ht
      rcases ht with rfl | rfl <;> simp [applyU, failU]
    · split at ht
      · simp [List.mem_filterMap] at ht
        rcases ht with rfl | rfl <;> simp [applyU, failU]
      · split at ht
        · simp [List.mem_filterMap] at ht
          rcases ht with rfl | rfl <;> simp [applyU, failU]
        · split at ht
          · simp [List.mem_filterMap] at ht
            rcases ht with rfl | rfl <;> simp [applyU, failU]
          · split at ht
            · simp [List.mem_filterMap] at ht
              rcases ht with rfl | rfl <;> simp [applyU, failU]
            · split at ht
              · simp [List.mem_filterMap] at ht
                rcases ht with rfl | rfl <;> simp [applyU, failU]
              · simp [List.mem_filterMap] at ht
                rcases ht with rfl | rfl | rfl | rfl | rfl | rfl <;> simp [applyU, failU]

/-- **C7.** Re-running `start` on a `WorkflowState` recording a (truthy)
repository identifier and handle, when the repository still exists remotely,
never calls `createVaultRepo` — the existence check short-circuits creation
— and every persisted row keeps the recorded `vaultRepoName` unchanged. -/
theorem runSetupProcess_reuses_repo (env : SetupEnv) (s0 : SetupState)
    (hn : truthy s0.vaultRepoName = true) (hu : truthy s0.vaultRepoUrl = true)
    (hex : env.repoStillExists = true) :
    Event.call "createVaultRepo" ∉ runSetupProcess env s0 ∧
    ∀ s ∈ runStates env s0, s.vaultRepoName = s0.vaultRepoName := by
  obtain ⟨v, hv, hvne⟩ : ∃ v, s0.vaultRepoName = some v ∧ v ≠ "" := by
    cases h : s0.vaultRepoName with
    | none => simp [truthy, h] at hn
    | some v => exact ⟨v, rfl, by simpa [truthy, h] using hn⟩
  have hcond : (truthy s0.vaultRepoName && truthy s0.vaultRepoUrl && env.repoStillExists)
      = true := by
    simp [hn, hu, hex]
  constructor
  · intro hmem
    simp only [runSetupProcess] at hmem
    split at hmem
    · simp at hmem
    · split at hmem
      · simp at hmem
      · split at hmem
        · simp at hmem
        · rcases List.mem_append.mp hmem with h | h
          · simp at h
          · exact (configPhase_preserves_repoName env _ _ _).1 h
  · intro t ht
    simp only [runStates, writesOf, List.mem_cons] at ht
    rcases ht with rfl | ht
    · rfl
    · simp only [runSetupProcess] at ht
      split at ht
      · simp [List.mem_filterMap] at ht
        rcases ht with rfl <;> simp [applyU, failU]
      · split at ht
        · simp [List.mem_filterMap] at ht
          rcases ht with rfl | rfl <;> simp [applyU, failU]
        · split at ht
          · simp [List.mem_filterMap] at ht
            rcases ht with rfl | rfl | rfl <;> simp [applyU, failU]
          · rw [List.filterMap_append, List.mem_append] at ht
            rcases ht with ht | ht
            · simp [List.mem_filterMap] at ht
              rcases ht with rfl | rfl | rfl | rfl | rfl <;> simp [applyU, failU, hv]
            · have hpres := (configPhase_preserves_repoName env _ _ _).2 t ht
              rw [hpres]
              simp [applyU, hv]

/-- Witness for C7: on a re-run with a recorded, still existing repository,
`createVaultRepo` is never called and the recorded name is kept in every
observable row. -/
theorem runSetupProcess_reuses_repo_witness :
    Event.call "createVaultRepo" ∉ runSetupProcess envReuse s0Reuse ∧
    (runStates envReuse s0Reuse).Forall
      (fun s => s.vaultRepoName = s0Reuse.vaultRepoName) :=
  ⟨(runSetupProcess_reuses_repo envReuse s0Reuse (by decide) (by decide) rfl).1,
   List.forall_iff_forall_mem.mpr
     ((runSetupProcess_reuses_repo envReuse s0Reuse (by decide) (by decide) rfl).2)⟩

/-- Counterexample to C6 as stated: resetting a `ready` workflow does set
`phase = "pending"` and clears the machine identifiers, but it does **not**
clear the repository identifier and handle — `vaultRepoName` and
`vaultRepoUrl` are absent from the update at `status/route.ts` lines 117-133
and survive the reset (as does the stored API key). -/
theorem resetPOST_keeps_repo_counterexample :
    (resetPOST s0Ready (Except.ok ())).map (fun t => t.status) = some "pending" ∧
    (resetPOST s0Ready (Except.ok ())).map (fun t => t.vaultRepoName) =
      some (some "samantha-vault-k3") ∧
    (resetPOST s0Ready (Except.ok ())).map (fun t => t.vaultRepoUrl) =
      some (some "https://github.com/me/samantha-vault-k3") := by
  decide

/-- **C6 (amended).** For every row holding a (truthy) machine id, `reset`
applies the state reset regardless of the machine-deletion outcome (an
already-deleted machine is tolerated): the resulting row has
`status = "pending"`, every step flag false, the machine identifiers
(`orgoProjectId`, `orgoComputerId`, `orgoComputerUrl`, `vmStatus`) nulled
and the diagnostic cleared — while the repository identifier and handle
(`vaultRepoName`, `vaultRepoUrl`) and the stored API key are preserved, not
cleared. -/
theorem resetPOST_resets_state (s : SetupState) (out : Except String Unit)
    (h : truthy s.orgoComputerId = true) :
    resetPOST s out = some (applyU s resetUpdate) ∧
    (applyU s resetUpdate).status = "pending" ∧
    (applyU s resetUpdate).vmCreated = false ∧
    (applyU s resetUpdate).repoCreated = false ∧
    (applyU s resetUpdate).repoCloned = false ∧
    (applyU s resetUpdate).browserUseInstalled = false ∧
    (applyU s resetUpdate).gitSyncConfigured = false ∧
    (applyU s resetUpdate).ralphWiggumSetup = false ∧
    (applyU s resetUpdate).orgoProjectId = none ∧
    (applyU s resetUpdate).orgoComputerId = none ∧
    (applyU s resetUpdate).orgoComputerUrl = none ∧
    (applyU s resetUpdate).vmStatus = none ∧
    (applyU s resetUpdate).errorMessage = none ∧
    (applyU s resetUpdate).vaultRepoName = s.vaultRepoName ∧
    (applyU s resetUpdate).vaultRepoUrl = s.vaultRepoUrl ∧
    (applyU s resetUpdate).claudeApiKey = s.claudeApiKey := by
  refine ⟨?_, ?_⟩
  · simp [resetPOST, h]
  · simp [applyU, resetUpdate]

/-- Witness for the amended C6: resetting the `ready` row `s0Ready` after a
failed machine deletion (the machine was already gone) still resets the
state, preserving the repository fields. -/
theorem resetPOST_resets_state_witness :
    resetPOST s0Ready (Except.error "Computer not found") =
      some (applyU s0Ready resetUpdate) ∧
    (applyU s0Ready resetUpdate).status = "pending" ∧
    (applyU s0Ready resetUpdate).vmCreated = false ∧
    (applyU s0Ready resetUpdate).repoCreated = false ∧
    (applyU s0Ready resetUpdate).repoCloned = false ∧
    (applyU s0Ready resetUpdate).browserUseInstalled = false ∧
    (applyU s0Ready resetUpdate).gitSyncConfigured = false ∧
    (applyU s0Ready resetUpdate).ralphWiggumSetup = false ∧
    (applyU s0Ready resetUpdate).orgoProjectId = none ∧
    (applyU s0Ready resetUpdate).orgoComputerId = none ∧
    (applyU s0Ready resetUpdate).orgoComputerUrl = none ∧
    (applyU s0Ready resetUpdate).vmStatus = none ∧
    (applyU s0Ready resetUpdate).errorMessage = none ∧
    (applyU s0Ready resetUpdate).vaultRepoName = s0Ready.vaultRepoName ∧
    (applyU s0Ready resetUpdate).vaultRepoUrl = s0Ready.vaultRepoUrl ∧
    (applyU s0Ready resetUpdate).claudeApiKey = s0Ready.claudeApiKey :=
  resetPOST_resets_state s0Ready (Except.error "Computer not found") (by decide)

/-- Witness for the amended C10: a stream of `PENDING` outputs exhausts all
30 polls; a stream that first reports `DONE` (trimmed from `" DONE\n"`) on
attempt 2 stops after 3 polls and returns the verification result. -/
theorem installBrowserUse_poller_witness :
    installBrowserUse cmdOk cmdOk (fun _ => { output := "PENDING", success := true }) cmdOk =
      (false, 30) ∧
    installBrowserUse cmdOk cmdOk
      (fun j => if j < 2 then { output := "PENDING", success := true }
                else { output := " DONE\n", success := true }) cmdOk = (true, 3) := by
  constructor
  · exact (installBrowserUse_poller cmdOk cmdOk _ cmdOk rfl).1 (fun j _ => by decide)
  · exact (installBrowserUse_poller cmdOk cmdOk _ cmdOk rfl).2 2 (by decide)
      (fun j hj => by interval_cases j <;> decide) (by decide)
